import Mathlib

-- Shallow embedding of the negromate storefront backend (Express + MongoDB)
-- and of its React cart context, used to check the specification claims.
--
-- Conventions of the embedding:
-- * MongoDB collections are Lean lists of records; document ids are strings.
-- * JS numbers are modeled as exact integers; the properties checked here
--   concern the structure of the computations, not floating-point rounding.
-- * External primitives (bcrypt hash/compare, JWT sign/verify) are passed as
--   function parameters, mirroring the controllers closing over the imported
--   library functions.
-- * Controllers return the HTTP status code together with the fixed response
--   envelope {msg, data, status}; controllers that write also return the new
--   collection state.

namespace Negromate

-- ============================================================
-- Data model (src/backend/db/models)
-- ============================================================

/-- A document of the products collection (Product.model.js). -/
structure Product where
  id : String
  name : String
  category : String
  price : Int
  imageUrl : String
  description : String
  details : List String
  deriving Repr, DecidableEq

/-- A document of the users collection (User.model.js). `password` stores the hash. -/
structure User where
  id : String
  username : String
  email : String
  password : String
  role : String
  deriving Repr, DecidableEq

/-- One entry of an order's `items` array (orderItemSchema in Order.model.js). -/
structure OrderItem where
  product : String
  quantity : Int
  price : Int
  deriving Repr, DecidableEq

/-- A document of the orders collection (Order.model.js). -/
structure Order where
  id : String
  user : String
  items : List OrderItem
  totalAmount : Int
  status : String
  deriving Repr, DecidableEq

/-- A document of the content collection (Content.model.js), restricted to the
fields the embedded controllers read. The `section` field is called
`sectionKey` here because `section` is a Lean keyword. -/
structure ContentDoc where
  id : String
  sectionKey : String
  title : String
  body : String
  deriving Repr, DecidableEq

/-- The fixed response envelope {msg, data, status} used by every endpoint. -/
structure ResponseAPI (α : Type) where
  msg : String
  data : Option α
  status : String
  deriving Repr, DecidableEq

/-- An HTTP response: the status code passed to res.status together with the
JSON envelope. -/
structure HttpResult (α : Type) where
  code : Nat
  body : ResponseAPI α
  deriving Repr, DecidableEq

-- ============================================================
-- JS string primitives, implemented by structural recursion on the
-- character list so that concrete instances evaluate inside proofs
-- ============================================================

/-- `s.startsWith(pre)`. -/
def strStartsWith (s pre : String) : Bool :=
  pre.data.isPrefixOf s.data

/-- `str.split(c)` for a one-character separator: split into the (possibly
empty) pieces between occurrences of `c`. -/
def splitOnChar (c : Char) : List Char → List (List Char)
  | [] => [[]]
  | a :: rest =>
    let r := splitOnChar c rest
    if a = c then [] :: r
    else
      match r with
      | [] => [[a]]
      | h :: t => (a :: h) :: t

/-- ASCII lowercasing of one character, as `Char.toLower` does. -/
def lowerChar (c : Char) : Char :=
  if 65 ≤ c.toNat ∧ c.toNat ≤ 90 then Char.ofNat (c.toNat + 32) else c

/-- `s.toLowerCase()` (ASCII, as the section names here are). -/
def lowerStr (s : String) : String :=
  String.mk (s.data.map lowerChar)

/-- `pat` occurs as a contiguous substring. -/
def containsSub (pat : List Char) : List Char → Bool
  | [] => pat.isEmpty
  | a :: rest => pat.isPrefixOf (a :: rest) || containsSub pat rest

/-- `str.includes(pat)`. -/
def strIncludes (s pat : String) : Bool :=
  containsSub pat.data s.data

-- ============================================================
-- Order controller (src/backend/controllers/order.controller.js)
-- ============================================================

/-- One entry of the `orderItems` array sent by the client in POST /api/orders.
`clientPrice` models any price field the client may have included in the JSON;
`createOrder` never reads it. -/
structure ReqItem where
  product : String
  quantity : Int
  clientPrice : Option Int
  deriving Repr, DecidableEq

/-- The `orderItems.map(...)` loop of `createOrder`: for each requested item,
look the product up among the fetched DB products; throw (modeled as
`Except.error`) at the first unresolvable product id; otherwise accumulate
`dbProduct.price * item.quantity` into the running total and emit the stored
item, whose `price` is the price from the database. -/
def processItems (itemsFromDB : List Product) :
    List ReqItem → Except String (List OrderItem × Int)
  | [] => Except.ok ([], 0)
  | item :: rest =>
    match itemsFromDB.find? (fun p => p.id == item.product) with
    | none =>
      Except.error (String.append (String.append "Producto con id " item.product)
        " no encontrado.")
    | some dbProduct =>
      match processItems itemsFromDB rest with
      | Except.error e => Except.error e
      | Except.ok (tail, subtotal) =>
        Except.ok
          ({ product := item.product, quantity := item.quantity,
             price := dbProduct.price } :: tail,
           dbProduct.price * item.quantity + subtotal)

/-- `Product.find({_id: {$in: orderItems.map(i => i.product)}})`: the products
whose id occurs among the requested item ids. -/
def orderItemsFromDB (db : List Product) (items : List ReqItem) : List Product :=
  db.filter (fun p => (items.map (fun i => i.product)).contains p.id)

/-- POST /api/orders (`createOrder`). `orderItems = none` models a request body
without the field. A thrown product-not-found error reaches the terminal error
middleware, which answers 500 with status "error". On success the order built
in memory is saved, i.e. appended to the orders collection. -/
def createOrder (db : List Product) (userId freshId : String)
    (orderItems : Option (List ReqItem)) (orders : List Order) :
    HttpResult Order × List Order :=
  match orderItems with
  | none =>
    (⟨400, ⟨"No hay artículos en la orden", none, "error"⟩⟩, orders)
  | some items =>
    if items.isEmpty then
      (⟨400, ⟨"No hay artículos en la orden", none, "error"⟩⟩, orders)
    else
      match processItems (orderItemsFromDB db items) items with
      | Except.error e =>
        (⟨500, ⟨e, none, "error"⟩⟩, orders)
      | Except.ok (processedItems, totalAmount) =>
        let order : Order := ⟨freshId, userId, processedItems, totalAmount, "pending"⟩
        (⟨201, ⟨"Orden creada con éxito", some order, "ok"⟩⟩, orders ++ [order])

/-- Erase the (ignored) client-submitted price of a requested item. -/
def scrubClientPrice (i : ReqItem) : ReqItem :=
  { i with clientPrice := none }

/-- The three legal order states (`validStatuses` in `updateOrderStatus`). -/
def validStatuses : List String := ["pending", "completed", "cancelled"]

/-- PUT /api/orders/:id (`updateOrderStatus`). `status = none` models a body
without the field. The JS guard `if (status && !validStatuses.includes(status))`
only fires for a truthy (non-empty) string; the later assignment
`if (status !== undefined)` fires for any supplied string. -/
def updateOrderStatus (orders : List Order) (id : String) (status : Option String) :
    HttpResult Order × List Order :=
  match orders.find? (fun o => o.id == id) with
  | none => (⟨404, ⟨"Orden no encontrada", none, "error"⟩⟩, orders)
  | some o =>
    match status with
    | some s =>
      if !s.isEmpty && !(validStatuses.contains s) then
        (⟨400, ⟨"Estado inválido. Debe ser: pending, completed o cancelled", none,
          "error"⟩⟩, orders)
      else
        let o2 := { o with status := s }
        (⟨200, ⟨"Estado de la orden actualizado", some o2, "ok"⟩⟩,
         orders.map (fun q => if q.id == id then o2 else q))
    | none =>
      (⟨200, ⟨"Estado de la orden actualizado", some o, "ok"⟩⟩,
       orders.map (fun q => if q.id == id then o else q))

-- ============================================================
-- Auth controller (src/backend/controllers/auth.controller.js)
-- ============================================================

/-- The user data returned by register/login: id, username, email, role and a
freshly signed JWT (the password hash is never included). -/
structure AuthData where
  id : String
  username : String
  email : String
  role : String
  token : String
  deriving Repr, DecidableEq

/-- JS falsiness of an optional string field: absent or empty. -/
def falsyStr : Option String → Bool
  | none => true
  | some s => s.isEmpty

/-- POST /api/auth/register (`registerUser`). `hash` models bcrypt hashing and
`genToken` models `jwt.sign`; `freshId` is the id MongoDB assigns to the new
document. A duplicate email is answered with res.status(400). -/
def registerUser (hash : String → String) (genToken : String → String)
    (users : List User) (freshId : String)
    (username email password : Option String) : HttpResult AuthData × List User :=
  if falsyStr username || falsyStr email || falsyStr password then
    (⟨400, ⟨"Todos los campos son obligatorios", none, "error"⟩⟩, users)
  else
    let un := username.getD ""
    let em := email.getD ""
    let pw := password.getD ""
    match users.find? (fun u => u.email == em) with
    | some _ =>
      (⟨400, ⟨"El email ya está registrado", none, "error"⟩⟩, users)
    | none =>
      let newUser : User := ⟨freshId, un, em, hash pw, "user"⟩
      (⟨201, ⟨"Usuario registrado con éxito",
          some ⟨freshId, un, em, "user", genToken freshId⟩, "ok"⟩⟩,
       users ++ [newUser])

/-- POST /api/auth/login (`loginUser`). `compare` models `bcrypt.compare`
(plain password against stored hash). Both failure causes — unknown email and
wrong password — fall into the same else branch. -/
def loginUser (compare : String → String → Bool) (genToken : String → String)
    (users : List User) (email password : String) : HttpResult AuthData :=
  match users.find? (fun u => u.email == email) with
  | some user =>
    if compare password user.password then
      ⟨200, ⟨"Inicio de sesión exitoso",
        some ⟨user.id, user.username, user.email, user.role, genToken user.id⟩, "ok"⟩⟩
    else
      ⟨401, ⟨"Credenciales inválidas", none, "error"⟩⟩
  | none => ⟨401, ⟨"Credenciales inválidas", none, "error"⟩⟩

-- ============================================================
-- Auth middlewares and router (src/unnamed/part_013, part_010)
-- ============================================================

/-- An incoming request as the middlewares see it: the optional Authorization
header and an arbitrary payload. -/
structure Request (β : Type) where
  authorization : Option String
  body : β
  deriving Repr, DecidableEq

/-- Outcome of a middleware: either respond immediately with a status code and
message, or call next() with req.user set. -/
inductive MWResult (β : Type) where
  | respond (code : Nat) (msg : String) : MWResult β
  | proceed (user : User) (body : β) : MWResult β
  deriving Repr, DecidableEq

/-- The status code of a middleware outcome; `none` when it proceeded. -/
def MWResult.statusCode {β : Type} : MWResult β → Option Nat
  | MWResult.respond c _ => some c
  | MWResult.proceed _ _ => none

/-- `authorization.split(' ')[1]`: the second space-separated component of the
header (the Bearer guard guarantees it exists). -/
def extractBearerToken (auth : String) : String :=
  String.mk ((splitOnChar ' ' auth.data).getD 1 [])

/-- `authMiddleware`. `verify` models `jwt.verify`: it yields the embedded user
id, or nothing when the token is malformed, tampered with or expired. -/
def authMiddleware {β : Type} (verify : String → Option String) (users : List User)
    (req : Request β) : MWResult β :=
  match req.authorization with
  | none =>
    MWResult.respond 401 "No autorizado, token no proporcionado o formato incorrecto."
  | some auth =>
    if strStartsWith auth "Bearer " then
      match verify (extractBearerToken auth) with
      | none => MWResult.respond 401 "No autorizado, token inválido."
      | some uid =>
        match users.find? (fun u => u.id == uid) with
        | none => MWResult.respond 401 "No autorizado, usuario no encontrado."
        | some user => MWResult.proceed user req.body
    else
      MWResult.respond 401 "No autorizado, token no proporcionado o formato incorrecto."

/-- The disjunction of the four rejection causes of `authMiddleware`: header
missing, header not of Bearer form, token rejected by `verify`, or the decoded
subject no longer present in the users collection. -/
def tokenRejected (verify : String → Option String) (users : List User) :
    Option String → Bool
  | none => true
  | some auth =>
    if strStartsWith auth "Bearer " then
      match verify (extractBearerToken auth) with
      | none => true
      | some uid => (users.find? (fun u => u.id == uid)).isNone
    else
      true

/-- `adminMiddleware`: answers some (403, msg) unless req.user is present with
role admin, in which case it calls next() (`none`). -/
def adminMiddleware (user : Option User) : Option (Nat × String) :=
  match user with
  | some u =>
    if u.role == "admin" then none
    else some (403, "Acceso denegado, requiere rol de administrador.")
  | none => some (403, "Acceso denegado, requiere rol de administrador.")

/-- The two protection middlewares a route of this router can be registered with. -/
inductive Mw where
  | auth
  | admin
  deriving Repr, DecidableEq

/-- A route registration: HTTP method, path, and its middleware chain in order. -/
structure Route where
  method : String
  path : String
  middlewares : List Mw
  deriving Repr, DecidableEq

/-- The full route table of the router (src/unnamed/part_010), in registration
order, with each route's middleware chain. -/
def routes : List Route := [
  ⟨"post", "/auth/register", []⟩,
  ⟨"post", "/auth/login", []⟩,
  ⟨"get", "/auth/profile", [Mw.auth]⟩,
  ⟨"get", "/users", [Mw.auth, Mw.admin]⟩,
  ⟨"get", "/users/:id", [Mw.auth, Mw.admin]⟩,
  ⟨"put", "/users/:id", [Mw.auth]⟩,
  ⟨"delete", "/users/:id", [Mw.auth, Mw.admin]⟩,
  ⟨"get", "/products", []⟩,
  ⟨"get", "/products/category/:category", []⟩,
  ⟨"get", "/products/:id", []⟩,
  ⟨"post", "/products", [Mw.auth, Mw.admin]⟩,
  ⟨"put", "/products/:id", [Mw.auth, Mw.admin]⟩,
  ⟨"delete", "/products/:id", [Mw.auth, Mw.admin]⟩,
  ⟨"get", "/orders", [Mw.auth, Mw.admin]⟩,
  ⟨"get", "/orders/myorders", [Mw.auth]⟩,
  ⟨"get", "/orders/:id", [Mw.auth]⟩,
  ⟨"post", "/orders", [Mw.auth]⟩,
  ⟨"put", "/orders/:id", [Mw.auth, Mw.admin]⟩,
  ⟨"delete", "/orders/:id", [Mw.auth, Mw.admin]⟩,
  ⟨"get", "/content", [Mw.auth, Mw.admin]⟩,
  ⟨"get", "/content/:sectionName", []⟩,
  ⟨"post", "/content", [Mw.auth, Mw.admin]⟩,
  ⟨"put", "/content/:id", [Mw.auth, Mw.admin]⟩,
  ⟨"delete", "/content/:id", [Mw.auth, Mw.admin]⟩]

/-- Run a middleware chain and then the controller. The result is the HTTP
status code of the response together with a flag telling whether the route's
controller ran. `user` is the current req.user (set by authMiddleware). -/
def runMws {β : Type} (verify : String → Option String) (users : List User)
    (req : Request β) (controller : Option User → β → Nat) :
    Option User → List Mw → Nat × Bool
  | user, [] => (controller user req.body, true)
  | _user, Mw.auth :: rest =>
    match authMiddleware verify users req with
    | MWResult.respond c _ => (c, false)
    | MWResult.proceed u _ => runMws verify users req controller (some u) rest
  | user, Mw.admin :: rest =>
    match adminMiddleware user with
    | some (c, _) => (c, false)
    | none => runMws verify users req controller user rest

/-- Dispatch a request through a route's middleware chain, starting with no
authenticated user. -/
def runRoute {β : Type} (verify : String → Option String) (users : List User)
    (req : Request β) (controller : Option User → β → Nat) (mws : List Mw) :
    Nat × Bool :=
  runMws verify users req controller none mws

-- ============================================================
-- Product controller (src/unnamed/part_015, updateProduct)
-- ============================================================

/-- The body of PUT /api/products/:id; each field is optional (absent models
`undefined`). -/
structure UpdateProductBody where
  name : Option String
  category : Option String
  price : Option Int
  imageUrl : Option String
  description : Option String
  details : Option (List String)
  deriving Repr, DecidableEq

/-- A PUT body that supplies no field at all. -/
def emptyProductBody : UpdateProductBody := ⟨none, none, none, none, none, none⟩

/-- The six `if (field !== undefined) product.field = field` assignments of
`updateProduct`. -/
def applyProductUpdate (p : Product) (b : UpdateProductBody) : Product :=
  { p with
    name := b.name.getD p.name,
    category := b.category.getD p.category,
    price := b.price.getD p.price,
    imageUrl := b.imageUrl.getD p.imageUrl,
    description := b.description.getD p.description,
    details := b.details.getD p.details }

/-- PUT /api/products/:id (`updateProduct`): find the document, 404 when the id
does not resolve, otherwise apply the supplied fields and save. -/
def updateProduct (db : List Product) (id : String) (b : UpdateProductBody) :
    HttpResult Product × List Product :=
  match db.find? (fun p => p.id == id) with
  | none => (⟨404, ⟨"Producto no encontrado", none, "error"⟩⟩, db)
  | some p =>
    let p2 := applyProductUpdate p b
    (⟨200, ⟨"Producto actualizado con éxito", some p2, "ok"⟩⟩,
     db.map (fun q => if q.id == id then p2 else q))

-- ============================================================
-- Content controller (src/unnamed/part_016, getContentBySection)
-- ============================================================

/-- The data field of a GET /api/content/:sectionName response: either the
static gallery image list (gallery image objects modeled opaquely as strings)
or a content document from the database. -/
inductive ContentData where
  | gallery (images : List String) : ContentData
  | doc (c : ContentDoc) : ContentData
  deriving Repr, DecidableEq

/-- The observable outcome of `getContentBySection`: status code, message, data,
and whether the Content collection was queried. -/
structure ContentResult where
  code : Nat
  msg : String
  data : Option ContentData
  dbQueried : Bool
  deriving Repr, DecidableEq

/-- `sectionName.toLowerCase().includes('gallery')`. -/
def includesGallery (s : String) : Bool :=
  strIncludes (lowerStr s) "gallery"

/-- `sectionName.split('-')[1]`: the gallery key derived from the section name,
absent when the name has no dash. -/
def galleryKey (s : String) : Option String :=
  ((splitOnChar '-' s.data).get? 1).map String.mk

/-- `mockData.galleryImages[key] || []`: look the derived key up in the static
mock table; an absent key (or no key at all) yields the empty list. -/
def mockLookup (mock : List (String × List String)) : Option String → List String
  | none => []
  | some k =>
    match mock.find? (fun e => e.1 == k) with
    | some e => e.2
    | none => []

/-- True when the derived gallery key is absent from the mock table. -/
def galleryKeyAbsent (mock : List (String × List String)) : Option String → Bool
  | none => true
  | some k => (mock.find? (fun e => e.1 == k)).isNone

/-- GET /api/content/:sectionName (`getContentBySection`). When the lowercased
name contains "gallery" the data comes from the static mock table and is an
array, hence always truthy, so this branch always answers 200 — even with an
empty list. Otherwise the Content collection is queried and a missing document
answers 404. -/
def getContentBySection (mock : List (String × List String))
    (contentDB : List ContentDoc) (sectionName : String) : ContentResult :=
  if includesGallery sectionName then
    { code := 200, msg := "Contenido obtenido",
      data := some (ContentData.gallery (mockLookup mock (galleryKey sectionName))),
      dbQueried := false }
  else
    match contentDB.find? (fun c => c.sectionKey == sectionName) with
    | some c =>
      { code := 200, msg := "Contenido obtenido",
        data := some (ContentData.doc c), dbQueried := true }
    | none =>
      { code := 404,
        msg := String.append "No se encontró contenido para la sección " sectionName,
        data := none, dbQueried := true }

-- ============================================================
-- Cart context (src/frontend/src/context/CartContext.jsx)
-- ============================================================

/-- An item of the client cart: the product snapshot (collapsed to its id and
price, the fields the cart logic reads) plus a quantity. -/
structure CartItem where
  id : String
  price : Int
  quantity : Int
  deriving Repr, DecidableEq

/-- `addToCart(product, quantity)`: increment the quantity when the product is
already in the cart, append it otherwise. The JS default for `quantity` is 1. -/
def addToCart (prev : List CartItem) (productId : String) (productPrice : Int)
    (quantity : Int) : List CartItem :=
  if prev.any (fun i => i.id == productId) then
    prev.map (fun i =>
      if i.id == productId then { i with quantity := i.quantity + quantity } else i)
  else
    prev ++ [⟨productId, productPrice, quantity⟩]

/-- `removeFromCart(productId)`. -/
def removeFromCart (prev : List CartItem) (productId : String) : List CartItem :=
  prev.filter (fun i => i.id != productId)

/-- `updateQuantity(productId, quantity)`: `Math.max(1, quantity)` clamps the
new quantity to at least 1. -/
def updateQuantity (prev : List CartItem) (productId : String) (quantity : Int) :
    List CartItem :=
  prev.map (fun i =>
    if i.id == productId then { i with quantity := max 1 quantity } else i)

/-- `clearCart()`. -/
def clearCart (_prev : List CartItem) : List CartItem := []

/-- One invocation of a cart operation, with its arguments. -/
inductive CartOp where
  | add (productId : String) (productPrice : Int) (quantity : Int) : CartOp
  | remove (productId : String) : CartOp
  | update (productId : String) (quantity : Int) : CartOp
  | clear : CartOp
  deriving Repr, DecidableEq

/-- Apply one cart operation to the current cart state. -/
def applyCartOp (items : List CartItem) : CartOp → List CartItem
  | CartOp.add pid price q => addToCart items pid price q
  | CartOp.remove pid => removeFromCart items pid
  | CartOp.update pid q => updateQuantity items pid q
  | CartOp.clear => clearCart items

/-- Run a sequence of cart operations starting from the empty cart. -/
def runCartOps (ops : List CartOp) : List CartItem :=
  ops.foldl applyCartOp []

/-- An operation whose quantity argument (when it has one) is at least 1.
Every `addToCart` call site in the repository uses the default quantity 1. -/
def cartOpPositive : CartOp → Bool
  | CartOp.add _ _ q => decide (1 ≤ q)
  | _ => true

-- ============================================================
-- Concrete fixtures used by witnesses and counterexamples
-- ============================================================

/-- A stand-in for bcrypt hashing (injective on these fixtures). -/
def sampleHash : String → String := fun s => String.append "hashed:" s

/-- A stand-in for jwt.sign. -/
def sampleToken : String → String := fun s => String.append "token:" s

/-- A stand-in for bcrypt.compare against `sampleHash`. -/
def sampleCompare : String → String → Bool := fun pw h => sampleHash pw == h

/-- A stand-in for jwt.verify: only the token of user u1 verifies. -/
def sampleVerify : String → Option String :=
  fun t => if t == "token:u1" then some "u1" else none

/-- A graphic-design product. -/
def sampleP1 : Product := ⟨"p1", "Pack logo", "GraphicDesign", 50, "", "", []⟩

/-- A mural product. -/
def sampleP2 : Product := ⟨"p2", "Mural grande", "Murals", 300, "", "", []⟩

/-- A small products collection. -/
def sampleProducts : List Product := [sampleP1, sampleP2]

/-- A non-admin user. -/
def sampleUser : User := ⟨"u1", "ana", "ana@mail.com", sampleHash "pw1", "user"⟩

/-- A users collection holding only `sampleUser`. -/
def sampleUsers : List User := [sampleUser]

/-- A well-formed order request for `sampleProducts`, with a bogus client price
on the first item. -/
def sampleItems : List ReqItem := [⟨"p1", 2, some 1⟩, ⟨"p2", 1, none⟩]

/-- The order `createOrder` persists for `sampleItems` against `sampleProducts`. -/
def sampleOrder : Order :=
  ⟨"o1", "u1", [⟨"p1", 2, 50⟩, ⟨"p2", 1, 300⟩], 400, "pending"⟩

/-- An order request naming a product id that is not in `sampleProducts`. -/
def badItems : List ReqItem := [⟨"nope", 1, none⟩]

/-- A small orders collection. -/
def sampleOrders : List Order := [sampleOrder]

/-- A cart operation sequence whose add operations all use quantity 1. -/
def sampleCartOps : List CartOp := [
  CartOp.add "p1" 50 1,
  CartOp.add "p1" 50 1,
  CartOp.update "p1" 0,
  CartOp.add "p2" 300 1,
  CartOp.remove "p2"]

/-- The admin-only GET /api/users route. -/
def adminRouteEx : Route := ⟨"get", "/users", [Mw.auth, Mw.admin]⟩

/-- A request by user u1 with a verifying bearer token and payload 0. -/
def reqEx : Request Nat := ⟨some "Bearer token:u1", 0⟩

/-- The static gallery mock table used by witnesses. -/
def sampleMock : List (String × List String) := [("graphicDesign", ["g1.png"])]

/-- A content collection holding one non-gallery section. -/
def sampleContent : List ContentDoc := [⟨"c1", "aboutUs", "Sobre nosotros", "texto"⟩]

-- ============================================================
-- Helper lemmas
-- ============================================================

/-- `find?` over a filtered list agrees with `find?` over the whole list when
the search predicate implies the filter predicate. -/
theorem find?_filter_of_imp {α : Type} (l : List α) (p q : α → Bool)
    (hpq : ∀ a, q a = true → p a = true) :
    (l.filter p).find? q = l.find? q := by
  induction l with
  | nil => rfl
  | cons a t ih =>
    cases hqa : q a with
    | true =>
      have hpa := hpq a hqa
      rw [List.filter_cons, if_pos hpa, List.find?_cons_of_pos _ hqa,
        List.find?_cons_of_pos _ hqa]
    | false =>
      have hq2 : ¬ q a := by simp [hqa]
      cases hpa : p a with
      | true =>
        rw [List.filter_cons, if_pos hpa, List.find?_cons_of_neg _ hq2,
          List.find?_cons_of_neg _ hq2, ih]
      | false =>
        rw [List.filter_cons, if_neg (by simp [hpa]), List.find?_cons_of_neg _ hq2, ih]

/-- Membership makes `List.contains` true (strings). -/
theorem contains_of_mem {a : String} {l : List String} (h : a ∈ l) :
    l.contains a = true := by
  simpa [List.contains] using h

/-- Specification of a successful `processItems` pass over the filtered product
list: the accumulated total is the sum of (stored price times quantity) over
the emitted items, and every emitted item's price is the price of the product
found for its id in the full products collection. -/
theorem processItems_ok_spec (db : List Product) (ids : List String)
    (its : List ReqItem) (hids : ∀ it ∈ its, it.product ∈ ids)
    (processed : List OrderItem) (total : Int)
    (h : processItems (db.filter (fun p => ids.contains p.id)) its
      = Except.ok (processed, total)) :
    total = (processed.map (fun it => it.price * it.quantity)).sum
    ∧ ∀ oi ∈ processed, ∃ p, db.find? (fun q => q.id == oi.product) = some p
        ∧ oi.price = p.price := by
  induction its generalizing processed total with
  | nil =>
    unfold processItems at h
    cases h
    simp
  | cons item rest ih =>
    unfold processItems at h
    cases hfind : (db.filter (fun p => ids.contains p.id)).find?
        (fun p => p.id == item.product) with
    | none => rw [hfind] at h; cases h
    | some dbp =>
      rw [hfind] at h
      cases hrest : processItems (db.filter (fun p => ids.contains p.id)) rest with
      | error e => rw [hrest] at h; cases h
      | ok pr =>
        obtain ⟨tail, subtotal⟩ := pr
        rw [hrest] at h
        cases h
        obtain ⟨ih1, ih2⟩ := ih (fun it hit => hids it (List.mem_cons_of_mem _ hit))
          tail subtotal hrest
        constructor
        · simp [ih1]
        · intro oi hoi
          rcases List.mem_cons.mp hoi with hhd | htl
          · subst hhd
            refine ⟨dbp, ?_, rfl⟩
            have hf := find?_filter_of_imp db (fun p => ids.contains p.id)
              (fun p => p.id == item.product) ?_
            · rw [← hf, hfind]
            · intro a ha
              have ha2 : a.id = item.product := by simpa using ha
              show ids.contains a.id = true
              rw [ha2]
              exact contains_of_mem (hids item (List.mem_cons_self _ _))
          · exact ih2 oi htl

/-- If some requested item's product id resolves to nothing, `processItems`
throws. -/
theorem processItems_error_of_missing (fdb : List Product) (its : List ReqItem)
    (h : ∃ it ∈ its, fdb.find? (fun p => p.id == it.product) = none) :
    ∃ e, processItems fdb its = Except.error e := by
  induction its with
  | nil =>
    obtain ⟨it, hit, _⟩ := h
    cases hit
  | cons item rest ih =>
    cases hfind : fdb.find? (fun p => p.id == item.product) with
    | none => exact ⟨_, by unfold processItems; rw [hfind]⟩
    | some dbp =>
      obtain ⟨it, hit, hnone⟩ := h
      rcases List.mem_cons.mp hit with heq | htl
      · rw [heq] at hnone
        rw [hfind] at hnone
        cases hnone
      · obtain ⟨e, he⟩ := ih ⟨it, htl, hnone⟩
        refine ⟨e, ?_⟩
        unfold processItems
        rw [hfind, he]

/-- `processItems` never reads the client-submitted price. -/
theorem processItems_scrub (fdb : List Product) (its : List ReqItem) :
    processItems fdb (its.map scrubClientPrice) = processItems fdb its := by
  induction its with
  | nil => rfl
  | cons item rest ih =>
    simp only [List.map_cons]
    unfold processItems
    simp only [scrubClientPrice]
    rw [ih]

/-- `createOrder` never reads the client-submitted prices. -/
theorem createOrder_scrub (db : List Product) (userId freshId : String)
    (its : List ReqItem) (orders : List Order) :
    createOrder db userId freshId (some (its.map scrubClientPrice)) orders
      = createOrder db userId freshId (some its) orders := by
  have h1 : (its.map scrubClientPrice).isEmpty = its.isEmpty := by
    cases its <;> rfl
  have h2 : orderItemsFromDB db (its.map scrubClientPrice) = orderItemsFromDB db its := by
    unfold orderItemsFromDB
    simp [scrubClientPrice]
  simp only [createOrder]
  rw [h1, h2, processItems_scrub]

/-- Replacing the document found for a key by itself is the identity when the
keys of the list are distinct (abstract form used for products and orders). -/
theorem map_replace_found_eq {α : Type} (l : List α) (key : α → String)
    (k : String) (x : α) (hnd : (l.map key).Nodup)
    (hx : l.find? (fun q => key q == k) = some x) :
    l.map (fun q => if key q == k then x else q) = l := by
  have hxmem : x ∈ l := List.mem_of_find?_eq_some hx
  have hxkey : key x = k := by
    have := List.find?_some hx
    simpa using this
  have hcongr : ∀ q ∈ l, (if key q == k then x else q) = q := by
    intro q hq
    by_cases hqk : (key q == k) = true
    · have hq2 : key q = k := by simpa using hqk
      have hqx : q = x :=
        List.inj_on_of_nodup_map hnd hq hxmem (by rw [hq2, hxkey])
      simp [hqk, hqx]
    · simp [hqk]
  have := List.map_congr_left (g := fun q => q) hcongr
  simpa using this

/-- The key of `mockData.galleryImages[key] || []` being absent yields the
empty list. -/
theorem mockLookup_absent (mock : List (String × List String)) (k : Option String)
    (h : galleryKeyAbsent mock k = true) : mockLookup mock k = [] := by
  cases k with
  | none => rfl
  | some key =>
    unfold galleryKeyAbsent at h
    have h2 : mock.find? (fun e => e.1 == key) = none := by simpa using h
    simp [mockLookup, h2]

/-- One cart operation with a positive quantity argument preserves the
quantity floor. -/
theorem applyCartOp_floor (items : List CartItem)
    (hinv : ∀ it ∈ items, 1 ≤ it.quantity) (op : CartOp)
    (hop : cartOpPositive op = true) :
    ∀ it ∈ applyCartOp items op, 1 ≤ it.quantity := by
  intro it hit
  cases op with
  | add pid price q =>
    have hq : 1 ≤ q := of_decide_eq_true hop
    simp only [applyCartOp, addToCart] at hit
    by_cases hany : items.any (fun i => i.id == pid) = true
    · rw [if_pos hany] at hit
      rcases List.mem_map.mp hit with ⟨a, ha, rfl⟩
      have h1 := hinv a ha
      by_cases hid : (a.id == pid) = true
      · simp only [hid, if_true]
        show (1 : Int) ≤ a.quantity + q
        omega
      · simp [hid, h1]
    · rw [if_neg hany] at hit
      rcases List.mem_append.mp hit with hmem | hmem
      · exact hinv it hmem
      · have : it = ⟨pid, price, q⟩ := by simpa using hmem
        rw [this]
        exact hq
  | remove pid =>
    simp only [applyCartOp, removeFromCart] at hit
    exact hinv it (List.mem_filter.mp hit).1
  | update pid q =>
    simp only [applyCartOp, updateQuantity] at hit
    rcases List.mem_map.mp hit with ⟨a, ha, rfl⟩
    by_cases hid : (a.id == pid) = true
    · simp only [hid, if_true]
      exact le_max_left 1 q
    · rw [if_neg hid]
      exact hinv a ha
  | clear => simp [applyCartOp, clearCart] at hit

/-- Folding positive cart operations from an invariant-satisfying state keeps
every quantity at least 1. -/
theorem foldl_cartOps_floor (ops : List CartOp) :
    ∀ items, (∀ it ∈ items, 1 ≤ it.quantity) →
      (∀ op ∈ ops, cartOpPositive op = true) →
      ∀ it ∈ ops.foldl applyCartOp items, 1 ≤ it.quantity := by
  induction ops with
  | nil =>
    intro items hinv _ it hit
    exact hinv it (by simpa using hit)
  | cons op rest ih =>
    intro items hinv hops it hit
    rw [List.foldl_cons] at hit
    exact ih (applyCartOp items op)
      (applyCartOp_floor items hinv op (hops op (List.mem_cons_self _ _)))
      (fun o ho => hops o (List.mem_cons_of_mem _ ho)) it hit

/-- The middleware chain of a route containing adminMiddleware stops with 403
when authentication yields a non-admin user, and the controller never runs. -/
theorem runMws_admin403 {β : Type} (verify : String → Option String)
    (users : List User) (req : Request β) (controller : Option User → β → Nat)
    (u : User) (hrole : (u.role == "admin") = false)
    (hauth : authMiddleware verify users req = MWResult.proceed u req.body) :
    ∀ mws, Mw.admin ∈ mws → ∀ user, (user = none ∨ user = some u) →
      runMws verify users req controller user mws = (403, false) := by
  intro mws
  induction mws with
  | nil =>
    intro hmem
    cases hmem
  | cons m rest ih =>
    intro hmem user huser
    cases m with
    | auth =>
      have hmem2 : Mw.admin ∈ rest := by
        rcases List.mem_cons.mp hmem with heq | hmm
        · exact absurd heq (by decide)
        · exact hmm
      simp only [runMws]
      rw [hauth]
      exact ih hmem2 (some u) (Or.inr rfl)
    | admin =>
      rcases huser with rfl | rfl
      · rfl
      · simp only [runMws]
        simp [adminMiddleware, hrole]

-- ============================================================
-- Claim theorems
-- ============================================================

/-- Claim C1: for every order creation that succeeds, the persisted order's
totalAmount equals the sum over its items of (the product's current price in
the database times the item's quantity), each stored item price is the
database price, and the outcome is independent of any price the client
submitted in the request body. -/
theorem createOrder_total_invariant (db : List Product) (userId freshId : String)
    (items : List ReqItem) (orders : List Order) (o : Order)
    (h : ((createOrder db userId freshId (some items) orders).1).body.data = some o) :
    o.totalAmount = (o.items.map (fun it => it.price * it.quantity)).sum
    ∧ (∀ oi ∈ o.items, ∃ p, db.find? (fun q => q.id == oi.product) = some p
        ∧ oi.price = p.price)
    ∧ (∀ items2 : List ReqItem,
        items2.map scrubClientPrice = items.map scrubClientPrice →
        createOrder db userId freshId (some items2) orders
          = createOrder db userId freshId (some items) orders) := by
  have hindep : ∀ items2 : List ReqItem,
      items2.map scrubClientPrice = items.map scrubClientPrice →
      createOrder db userId freshId (some items2) orders
        = createOrder db userId freshId (some items) orders := by
    intro items2 h2
    rw [← createOrder_scrub db userId freshId items2 orders, h2,
      createOrder_scrub db userId freshId items orders]
  by_cases hempty : items.isEmpty = true
  · exfalso
    simp [createOrder, hempty] at h
  · cases hp : processItems (orderItemsFromDB db items) items with
    | error e =>
      exfalso
      simp [createOrder, hempty, hp] at h
    | ok pr =>
      obtain ⟨processed, total⟩ := pr
      have ho : (⟨freshId, userId, processed, total, "pending"⟩ : Order) = o := by
        have h2 := h
        simp only [createOrder] at h2
        rw [if_neg hempty, hp] at h2
        exact Option.some.inj h2
      have hp2 := hp
      unfold orderItemsFromDB at hp2
      obtain ⟨h1, h2⟩ := processItems_ok_spec db (items.map (fun i => i.product))
        items (fun it hit => List.mem_map.mpr ⟨it, hit, rfl⟩) processed total hp2
      rw [← ho]
      exact ⟨h1, h2, hindep⟩

/-- Claim C1 witness: a concrete successful creation against `sampleProducts`. -/
theorem createOrder_total_invariant_witness :
    (((createOrder sampleProducts "u1" "o1" (some sampleItems) []).1).body.data
      = some sampleOrder)
    ∧ (sampleOrder.totalAmount
        = (sampleOrder.items.map (fun it => it.price * it.quantity)).sum
      ∧ (∀ oi ∈ sampleOrder.items, ∃ p,
          sampleProducts.find? (fun q => q.id == oi.product) = some p
          ∧ oi.price = p.price)
      ∧ (∀ items2 : List ReqItem,
          items2.map scrubClientPrice = sampleItems.map scrubClientPrice →
          createOrder sampleProducts "u1" "o1" (some items2) []
            = createOrder sampleProducts "u1" "o1" (some sampleItems) [])) :=
  ⟨by decide,
   createOrder_total_invariant sampleProducts "u1" "o1" sampleItems [] sampleOrder
     (by decide)⟩

/-- Claim C2: createOrder answers 400 when the item list is missing or empty,
and when any item's product id does not resolve to a database product the
whole creation fails (error response, no data) and the orders collection is
unchanged. -/
theorem createOrder_rejects_bad_input (db : List Product) (userId freshId : String)
    (orders : List Order) :
    ((createOrder db userId freshId none orders).1.code = 400
      ∧ (createOrder db userId freshId none orders).2 = orders)
    ∧ ((createOrder db userId freshId (some []) orders).1.code = 400
      ∧ (createOrder db userId freshId (some []) orders).2 = orders)
    ∧ (∀ items : List ReqItem,
        (∃ it ∈ items, db.find? (fun q => q.id == it.product) = none) →
        (createOrder db userId freshId (some items) orders).1.code = 500
        ∧ (createOrder db userId freshId (some items) orders).1.body.status = "error"
        ∧ (createOrder db userId freshId (some items) orders).1.body.data = none
        ∧ (createOrder db userId freshId (some items) orders).2 = orders) := by
  refine ⟨⟨rfl, rfl⟩, ⟨rfl, rfl⟩, ?_⟩
  rintro items ⟨it, hit, hfind⟩
  have hne : ¬ items.isEmpty = true := by
    cases items with
    | nil => cases hit
    | cons a t => simp
  have hfind2 : (orderItemsFromDB db items).find? (fun q => q.id == it.product)
      = none := by
    rw [List.find?_eq_none] at hfind ⊢
    intro x hx
    exact hfind x (List.mem_filter.mp hx).1
  obtain ⟨e, he⟩ := processItems_error_of_missing (orderItemsFromDB db items)
    items ⟨it, hit, hfind2⟩
  refine ⟨?_, ?_, ?_, ?_⟩ <;>
    · simp only [createOrder]
      rw [if_neg hne, he]

/-- Claim C2 witness: a concrete order request naming an unknown product id
fails with 500 and leaves the (empty) orders collection unchanged. -/
theorem createOrder_rejects_bad_input_witness :
    ((createOrder sampleProducts "u1" "o1" none []).1.code = 400
      ∧ (createOrder sampleProducts "u1" "o1" none []).2 = [])
    ∧ (∃ it ∈ badItems, sampleProducts.find? (fun q => q.id == it.product) = none)
    ∧ ((createOrder sampleProducts "u1" "o1" (some badItems) []).1.code = 500
      ∧ (createOrder sampleProducts "u1" "o1" (some badItems) []).1.body.status
        = "error"
      ∧ (createOrder sampleProducts "u1" "o1" (some badItems) []).1.body.data = none
      ∧ (createOrder sampleProducts "u1" "o1" (some badItems) []).2 = []) :=
  ⟨(createOrder_rejects_bad_input sampleProducts "u1" "o1" []).1, by decide,
   (createOrder_rejects_bad_input sampleProducts "u1" "o1" []).2.2 badItems (by decide)⟩

/-- Claim C3 counterexample: registering with the already-used email of
`sampleUsers` is answered with HTTP 400, not 409 Conflict, so "fails with
Conflict" is false on the code. -/
theorem registerUser_duplicate_not_conflict :
    (registerUser sampleHash sampleToken sampleUsers "u2" (some "bob")
      (some "ana@mail.com") (some "pw2")).1.code = 400
    ∧ ¬ (registerUser sampleHash sampleToken sampleUsers "u2" (some "bob")
      (some "ana@mail.com") (some "pw2")).1.code = 409 := by
  decide

/-- Claim C3 (amended): for every register call with non-empty username, email
and password whose email already exists in the users collection, the call is
answered with 400 and the envelope (status error, msg "El email ya está
registrado"), and the users collection is unchanged. -/
theorem registerUser_duplicate_email (hash genToken : String → String)
    (users : List User) (freshId un em pw : String)
    (hun : un.isEmpty = false) (hem : em.isEmpty = false) (hpw : pw.isEmpty = false)
    (hdup : (users.find? (fun u => u.email == em)).isSome = true) :
    (registerUser hash genToken users freshId (some un) (some em) (some pw)).1
      = ⟨400, ⟨"El email ya está registrado", none, "error"⟩⟩
    ∧ (registerUser hash genToken users freshId (some un) (some em) (some pw)).2
      = users := by
  obtain ⟨u, hu⟩ := Option.isSome_iff_exists.mp hdup
  simp [registerUser, falsyStr, hun, hem, hpw, hu]

/-- Claim C3 witness: the amended statement at the concrete duplicate email. -/
theorem registerUser_duplicate_email_witness :
    ("bob".isEmpty = false ∧ "ana@mail.com".isEmpty = false
      ∧ "pw2".isEmpty = false
      ∧ (sampleUsers.find? (fun u => u.email == "ana@mail.com")).isSome = true)
    ∧ ((registerUser sampleHash sampleToken sampleUsers "u2" (some "bob")
        (some "ana@mail.com") (some "pw2")).1
        = ⟨400, ⟨"El email ya está registrado", none, "error"⟩⟩
      ∧ (registerUser sampleHash sampleToken sampleUsers "u2" (some "bob")
        (some "ana@mail.com") (some "pw2")).2 = sampleUsers) :=
  ⟨⟨by decide, by decide, by decide, by decide⟩,
   registerUser_duplicate_email sampleHash sampleToken sampleUsers "u2" "bob"
     "ana@mail.com" "pw2" (by decide) (by decide) (by decide) (by decide)⟩

/-- Claim C4: whenever the bearer token is missing, malformed, rejected by
verification (expired or tampered), or its subject no longer exists in the
users collection, authMiddleware answers 401, and the outcome is the same for
every request payload. -/
theorem authMiddleware_rejects (verify : String → Option String) (users : List User)
    (hdr : Option String) (hrej : tokenRejected verify users hdr = true) :
    ∀ (β : Type) (b b2 : β),
      MWResult.statusCode (authMiddleware verify users ⟨hdr, b⟩) = some 401
      ∧ authMiddleware verify users ⟨hdr, b⟩ = authMiddleware verify users ⟨hdr, b2⟩ := by
  intro β b b2
  cases hdr with
  | none => exact ⟨rfl, rfl⟩
  | some auth =>
    simp only [tokenRejected] at hrej
    by_cases hb : strStartsWith auth "Bearer " = true
    · rw [if_pos hb] at hrej
      cases hv : verify (extractBearerToken auth) with
      | none =>
        constructor <;> simp [authMiddleware, hb, hv, MWResult.statusCode]
      | some uid =>
        rw [hv] at hrej
        have hfind : users.find? (fun u => u.id == uid) = none := by
          simpa using hrej
        constructor <;> simp [authMiddleware, hb, hv, hfind, MWResult.statusCode]
    · constructor <;> simp [authMiddleware, hb, MWResult.statusCode]

/-- Claim C4 witness: a Bearer header whose token fails verification is
answered with 401 for two different payloads. -/
theorem authMiddleware_rejects_witness :
    tokenRejected sampleVerify sampleUsers (some "Bearer zzz") = true
    ∧ (MWResult.statusCode
        (authMiddleware sampleVerify sampleUsers ⟨some "Bearer zzz", (0 : Nat)⟩)
        = some 401
      ∧ authMiddleware sampleVerify sampleUsers ⟨some "Bearer zzz", (0 : Nat)⟩
        = authMiddleware sampleVerify sampleUsers ⟨some "Bearer zzz", (1 : Nat)⟩) :=
  ⟨by decide,
   authMiddleware_rejects sampleVerify sampleUsers (some "Bearer zzz") (by decide)
     Nat 0 1⟩

/-- Claim C5: for every route of the router registered with adminMiddleware, a
request authenticated as a user whose role is not admin is answered with 403
and the route's controller never runs. -/
theorem adminRoute_forbidden {β : Type} (r : Route) (_hr : r ∈ routes)
    (hadm : Mw.admin ∈ r.middlewares)
    (verify : String → Option String) (users : List User) (req : Request β)
    (controller : Option User → β → Nat) (u : User)
    (hauth : authMiddleware verify users req = MWResult.proceed u req.body)
    (hrole : u.role ≠ "admin") :
    runRoute verify users req controller r.middlewares = (403, false) := by
  have hrole2 : (u.role == "admin") = false := beq_eq_false_iff_ne.mpr hrole
  exact runMws_admin403 verify users req controller u hrole2 hauth
    r.middlewares hadm none (Or.inl rfl)

/-- Claim C5 witness: the non-admin user u1 calling the admin-only GET
/api/users route gets 403 and the controller does not run. -/
theorem adminRoute_forbidden_witness :
    (adminRouteEx ∈ routes ∧ Mw.admin ∈ adminRouteEx.middlewares
      ∧ authMiddleware sampleVerify sampleUsers reqEx
        = MWResult.proceed sampleUser reqEx.body
      ∧ sampleUser.role ≠ "admin")
    ∧ runRoute sampleVerify sampleUsers reqEx (fun _ _ => 200)
        adminRouteEx.middlewares = (403, false) :=
  ⟨⟨by decide, by decide, by decide, by decide⟩,
   adminRoute_forbidden adminRouteEx (by decide) (by decide) sampleVerify
     sampleUsers reqEx (fun _ _ => 200) sampleUser (by decide) (by decide)⟩

/-- Claim C6: a PUT that supplies no fields succeeds with 200 and leaves every
field of the target document — and the whole collection — unchanged, both for
updateProduct and updateOrderStatus; in general only supplied fields change:
unsupplied product fields keep their values, other documents stay in the
collection, and an order-status update changes nothing but the status. -/
theorem update_frame_semantics (db : List Product) (pid : String) (p : Product)
    (hnd : (db.map (fun q => q.id)).Nodup)
    (hp : db.find? (fun q => q.id == pid) = some p)
    (orders : List Order) (oid : String) (o : Order)
    (hnd2 : (orders.map (fun q => q.id)).Nodup)
    (ho : orders.find? (fun q => q.id == oid) = some o) :
    ((updateProduct db pid emptyProductBody).1.code = 200
      ∧ (updateProduct db pid emptyProductBody).1.body.data = some p
      ∧ (updateProduct db pid emptyProductBody).2 = db)
    ∧ (∀ b : UpdateProductBody,
        (b.name = none → (applyProductUpdate p b).name = p.name)
        ∧ (b.category = none → (applyProductUpdate p b).category = p.category)
        ∧ (b.price = none → (applyProductUpdate p b).price = p.price)
        ∧ (b.imageUrl = none → (applyProductUpdate p b).imageUrl = p.imageUrl)
        ∧ (b.description = none →
            (applyProductUpdate p b).description = p.description)
        ∧ (b.details = none → (applyProductUpdate p b).details = p.details)
        ∧ (applyProductUpdate p b).id = p.id
        ∧ (∀ q ∈ (updateProduct db pid b).2, q.id ≠ pid → q ∈ db))
    ∧ ((updateOrderStatus orders oid none).1.code = 200
      ∧ (updateOrderStatus orders oid none).1.body.data = some o
      ∧ (updateOrderStatus orders oid none).2 = orders)
    ∧ (∀ s o2, (updateOrderStatus orders oid (some s)).1.body.data = some o2 →
        o2.id = o.id ∧ o2.user = o.user ∧ o2.items = o.items
        ∧ o2.totalAmount = o.totalAmount) := by
  have hpid : p.id = pid := by
    have := List.find?_some hp
    simpa using this
  have happly : applyProductUpdate p emptyProductBody = p := rfl
  refine ⟨?_, ?_, ?_, ?_⟩
  · refine ⟨?_, ?_, ?_⟩
    · simp [updateProduct, hp]
    · simp [updateProduct, hp, happly]
    · simp only [updateProduct, hp, happly]
      exact map_replace_found_eq db (fun q => q.id) pid p hnd hp
  · intro b
    refine ⟨?_, ?_, ?_, ?_, ?_, ?_, rfl, ?_⟩
    · intro hb
      simp [applyProductUpdate, hb]
    · intro hb
      simp [applyProductUpdate, hb]
    · intro hb
      simp [applyProductUpdate, hb]
    · intro hb
      simp [applyProductUpdate, hb]
    · intro hb
      simp [applyProductUpdate, hb]
    · intro hb
      simp [applyProductUpdate, hb]
    · intro q hq hqid
      simp only [updateProduct, hp] at hq
      rcases List.mem_map.mp hq with ⟨a, ha, rfl⟩
      by_cases hak : (a.id == pid) = true
      · rw [if_pos hak]
        exfalso
        apply hqid
        rw [if_pos hak] at *
        show (applyProductUpdate p b).id = pid
        rw [show (applyProductUpdate p b).id = p.id from rfl, hpid]
      · rw [if_neg hak]
        rw [if_neg hak] at *
        exact ha
  · refine ⟨?_, ?_, ?_⟩
    · simp [updateOrderStatus, ho]
    · simp [updateOrderStatus, ho]
    · simp only [updateOrderStatus, ho]
      exact map_replace_found_eq orders (fun q => q.id) oid o hnd2 ho
  · intro s o2 h2
    simp only [updateOrderStatus, ho] at h2
    by_cases hv : (!s.isEmpty && !(validStatuses.contains s)) = true
    · rw [if_pos hv] at h2
      cases h2
    · rw [if_neg hv] at h2
      have h3 : some { o with status := s } = some o2 := h2
      have h4 := (Option.some.inj h3).symm
      rw [h4]
      exact ⟨rfl, rfl, rfl, rfl⟩

/-- Claim C6 witness: the empty-body updates on concrete collections leave
them unchanged and answer 200. -/
theorem update_frame_semantics_witness :
    ((sampleProducts.map (fun q => q.id)).Nodup
      ∧ sampleProducts.find? (fun q => q.id == "p1") = some sampleP1
      ∧ (sampleOrders.map (fun q => q.id)).Nodup
      ∧ sampleOrders.find? (fun q => q.id == "o1") = some sampleOrder)
    ∧ ((updateProduct sampleProducts "p1" emptyProductBody).1.code = 200
      ∧ (updateProduct sampleProducts "p1" emptyProductBody).2 = sampleProducts
      ∧ (updateOrderStatus sampleOrders "o1" none).1.code = 200
      ∧ (updateOrderStatus sampleOrders "o1" none).2 = sampleOrders) :=
  ⟨⟨by decide, by decide, by decide, by decide⟩, by
    obtain ⟨h1, _, h3, _⟩ := update_frame_semantics sampleProducts "p1" sampleP1
      (by decide) (by decide) sampleOrders "o1" sampleOrder (by decide) (by decide)
    exact ⟨h1.1, h1.2.2, h3.1, h3.2.2⟩⟩

/-- Claim C7 counterexample: the section name "artgallery" is not
gallery-prefixed, yet its data is served from the static mock table and the
Content collection is never queried, even though a matching document exists —
refuting "for every other section name, the data comes from the Content
collection". -/
theorem getContentBySection_nonprefixed_counterexample :
    strStartsWith "artgallery" "gallery" = false
    ∧ (getContentBySection [] [⟨"c1", "artgallery", "t", "b"⟩] "artgallery").dbQueried
      = false
    ∧ (getContentBySection [] [⟨"c1", "artgallery", "t", "b"⟩] "artgallery").data
      = some (ContentData.gallery []) := by
  decide

/-- Claim C7 (amended): every section name whose lowercased form contains
"gallery" as a substring (not only gallery-prefixed ones) is served from the
static mock table without querying the Content collection; every section name
not containing "gallery" is answered from the Content collection (its document
when found, 404 otherwise). -/
theorem getContentBySection_source_of_truth (mock : List (String × List String))
    (contentDB : List ContentDoc) (s : String) :
    (includesGallery s = true →
      (getContentBySection mock contentDB s).dbQueried = false
      ∧ (getContentBySection mock contentDB s).data
        = some (ContentData.gallery (mockLookup mock (galleryKey s))))
    ∧ (includesGallery s = false →
      (getContentBySection mock contentDB s).dbQueried = true
      ∧ ((∃ c, contentDB.find? (fun c2 => c2.sectionKey == s) = some c
          ∧ (getContentBySection mock contentDB s).code = 200
          ∧ (getContentBySection mock contentDB s).data = some (ContentData.doc c))
        ∨ (contentDB.find? (fun c2 => c2.sectionKey == s) = none
          ∧ (getContentBySection mock contentDB s).code = 404
          ∧ (getContentBySection mock contentDB s).data = none))) := by
  constructor
  · intro hg
    constructor <;> simp [getContentBySection, hg]
  · intro hg
    cases hc : contentDB.find? (fun c2 => c2.sectionKey == s) with
    | some c =>
      refine ⟨?_, Or.inl ⟨c, rfl, ?_, ?_⟩⟩ <;> simp [getContentBySection, hg, hc]
    | none =>
      refine ⟨?_, Or.inr ⟨rfl, ?_, ?_⟩⟩ <;> simp [getContentBySection, hg, hc]

/-- Claim C7 witness: a gallery section is served from the mock table without
touching the database, and a plain section is answered from the database. -/
theorem getContentBySection_source_witness :
    (includesGallery "gallery-graphicDesign" = true
      ∧ includesGallery "aboutUs" = false)
    ∧ ((getContentBySection sampleMock sampleContent "gallery-graphicDesign").dbQueried
        = false
      ∧ (getContentBySection sampleMock sampleContent "gallery-graphicDesign").data
        = some (ContentData.gallery
            (mockLookup sampleMock (galleryKey "gallery-graphicDesign"))))
    ∧ ((getContentBySection sampleMock sampleContent "aboutUs").dbQueried = true
      ∧ ((∃ c, sampleContent.find? (fun c2 => c2.sectionKey == "aboutUs") = some c
          ∧ (getContentBySection sampleMock sampleContent "aboutUs").code = 200
          ∧ (getContentBySection sampleMock sampleContent "aboutUs").data
            = some (ContentData.doc c))
        ∨ (sampleContent.find? (fun c2 => c2.sectionKey == "aboutUs") = none
          ∧ (getContentBySection sampleMock sampleContent "aboutUs").code = 404
          ∧ (getContentBySection sampleMock sampleContent "aboutUs").data = none))) :=
  ⟨⟨by decide, by decide⟩,
   (getContentBySection_source_of_truth sampleMock sampleContent
     "gallery-graphicDesign").1 (by decide),
   (getContentBySection_source_of_truth sampleMock sampleContent "aboutUs").2
     (by decide)⟩

/-- Claim C8: every failed login — unknown email, or known email with a
password that does not match the stored hash — produces the identical 401
response with the same envelope, so the two causes are indistinguishable. -/
theorem loginUser_failures_indistinguishable
    (compare : String → String → Bool) (genToken : String → String)
    (usersA usersB : List User) (emailA pwA emailB pwB : String)
    (hA : usersA.find? (fun u => u.email == emailA) = none)
    (hB : ∃ u, usersB.find? (fun u2 => u2.email == emailB) = some u
      ∧ compare pwB u.password = false) :
    loginUser compare genToken usersA emailA pwA
      = ⟨401, ⟨"Credenciales inválidas", none, "error"⟩⟩
    ∧ loginUser compare genToken usersB emailB pwB
      = ⟨401, ⟨"Credenciales inválidas", none, "error"⟩⟩
    ∧ loginUser compare genToken usersA emailA pwA
      = loginUser compare genToken usersB emailB pwB := by
  have e1 : loginUser compare genToken usersA emailA pwA
      = ⟨401, ⟨"Credenciales inválidas", none, "error"⟩⟩ := by
    simp [loginUser, hA]
  obtain ⟨u, hu, hcmp⟩ := hB
  have e2 : loginUser compare genToken usersB emailB pwB
      = ⟨401, ⟨"Credenciales inválidas", none, "error"⟩⟩ := by
    simp [loginUser, hu, hcmp]
  exact ⟨e1, e2, e1.trans e2.symm⟩

/-- Claim C8 witness: an unknown email and a wrong password against
`sampleUsers` produce the identical 401 response. -/
theorem loginUser_failures_indistinguishable_witness :
    (([] : List User).find? (fun u => u.email == "nadie@mail.com") = none
      ∧ (∃ u, sampleUsers.find? (fun u2 => u2.email == "ana@mail.com") = some u
        ∧ sampleCompare "wrong" u.password = false))
    ∧ (loginUser sampleCompare sampleToken [] "nadie@mail.com" "pw"
        = ⟨401, ⟨"Credenciales inválidas", none, "error"⟩⟩
      ∧ loginUser sampleCompare sampleToken sampleUsers "ana@mail.com" "wrong"
        = ⟨401, ⟨"Credenciales inválidas", none, "error"⟩⟩
      ∧ loginUser sampleCompare sampleToken [] "nadie@mail.com" "pw"
        = loginUser sampleCompare sampleToken sampleUsers "ana@mail.com" "wrong") :=
  ⟨⟨by decide, by decide⟩,
   loginUser_failures_indistinguishable sampleCompare sampleToken [] sampleUsers
     "nadie@mail.com" "pw" "ana@mail.com" "wrong" (by decide) (by decide)⟩

/-- Claim C9 counterexample: from the empty cart, `addToCart` with quantity 0
produces an item whose quantity is below 1, so the floor does not hold for
arbitrary operation sequences. -/
theorem cart_quantity_floor_counterexample :
    ∃ it ∈ runCartOps [CartOp.add "p1" 5 0], it.quantity < 1 := by
  decide

/-- Claim C9 (amended): after any sequence of cart operations starting from
the empty cart in which every addToCart call supplies a quantity of at least 1
— as every call site in the repository does, via the default of 1 — every
item's quantity is at least 1; updateQuantity by itself always clamps to a
minimum of 1. -/
theorem cart_quantity_floor (ops : List CartOp)
    (h : ∀ op ∈ ops, cartOpPositive op = true) :
    ∀ it ∈ runCartOps ops, 1 ≤ it.quantity := by
  intro it hit
  exact foldl_cartOps_floor ops [] (by intro it2 hit2; cases hit2) h it hit

/-- Claim C9 witness: a concrete operation sequence with unit quantities,
including an updateQuantity call trying to force 0, keeps the floor. -/
theorem cart_quantity_floor_witness :
    (∀ op ∈ sampleCartOps, cartOpPositive op = true)
    ∧ ∀ it ∈ runCartOps sampleCartOps, 1 ≤ it.quantity :=
  ⟨by decide, cart_quantity_floor sampleCartOps (by decide)⟩

/-- Claim C10: a section name containing "gallery" whose derived key is absent
from the mock table is answered 200 with an empty array as data (the empty
array is truthy and bypasses the not-found branch), whereas a non-gallery
section absent from the database is answered 404. -/
theorem gallery_empty_200_vs_db_404 (mock : List (String × List String))
    (contentDB : List ContentDoc) :
    (∀ s, includesGallery s = true → galleryKeyAbsent mock (galleryKey s) = true →
      (getContentBySection mock contentDB s).code = 200
      ∧ (getContentBySection mock contentDB s).data
        = some (ContentData.gallery []))
    ∧ (∀ s, includesGallery s = false →
      contentDB.find? (fun c2 => c2.sectionKey == s) = none →
      (getContentBySection mock contentDB s).code = 404
      ∧ (getContentBySection mock contentDB s).data = none) := by
  constructor
  · intro s hg hk
    have hm := mockLookup_absent mock (galleryKey s) hk
    constructor <;> simp [getContentBySection, hg, hm]
  · intro s hg hc
    constructor <;> simp [getContentBySection, hg, hc]

/-- Claim C10 witness: "gallery-murals" has no key in `sampleMock` yet is
answered 200 with an empty gallery, while the unknown plain section
"faq" is answered 404. -/
theorem gallery_empty_200_vs_db_404_witness :
    (includesGallery "gallery-murals" = true
      ∧ galleryKeyAbsent sampleMock (galleryKey "gallery-murals") = true
      ∧ includesGallery "faq" = false
      ∧ sampleContent.find? (fun c2 => c2.sectionKey == "faq") = none)
    ∧ ((getContentBySection sampleMock sampleContent "gallery-murals").code = 200
      ∧ (getContentBySection sampleMock sampleContent "gallery-murals").data
        = some (ContentData.gallery []))
    ∧ ((getContentBySection sampleMock sampleContent "faq").code = 404
      ∧ (getContentBySection sampleMock sampleContent "faq").data = none) :=
  ⟨⟨by decide, by decide, by decide, by decide⟩,
   (gallery_empty_200_vs_db_404 sampleMock sampleContent).1 "gallery-murals"
     (by decide) (by decide),
   (gallery_empty_200_vs_db_404 sampleMock sampleContent).2 "faq"
     (by decide) (by decide)⟩

end Negromate
